import Mathlib

/-!
# Shallow embedding of the order subsystem of `dasboard-backend`

This file embeds the order routes of `src/routes/orders.js` together with the
storage semantics fixed by the schema in
`supabase/migrations/20251102002617_create_food_delivery_tables.sql`:

* `orders` rows carry a status constrained by
  `CHECK (status IN ('pending','preparing','delivered','cancelled'))`,
  a `total_amount numeric(10,2) CHECK (total_amount >= 0)`, payment enums,
  and `created_at` / `updated_at` timestamps; a trigger sets `updated_at`
  to `now()` on every update.
* `order_items` rows reference an order (`ON DELETE CASCADE`) and a menu item
  (`ON DELETE RESTRICT`), with `CHECK (quantity > 0)`, `CHECK (price >= 0)`
  and `subtotal numeric(10,2) GENERATED ALWAYS AS (quantity * price) STORED`.

Monetary `numeric(10,2)` columns are exact two-decimal values; they are
represented here in integer cents.  Timestamps are abstract `Nat` ticks; the
store carries the current clock value in `now`.

The route handlers either send a JSON response themselves or forward a
storage error to the Express error middleware via `next(error)`; the two
outcomes are kept apart by `RouteResult`.  The revenue computation of
`GET /stats/summary` uses JavaScript floating point
(`reduce((sum, o) => sum + parseFloat(o.total_amount), 0)`), which is
embedded by an exact model of IEEE-754 binary64 rounding (`F64`).
-/

namespace Dashboard

/-- A row of the `restaurants` table, restricted to the columns the order
routes touch: the primary key and the `name` joined by `restaurants(name)`. -/
structure Restaurant where
  id : Nat
  name : String
deriving DecidableEq, Repr

/-- A row of the `menu_items` table, restricted to the primary key and the
`name` joined by `menu_items(name)`. -/
structure MenuItem where
  id : Nat
  name : String
deriving DecidableEq, Repr

/-- A row of the `orders` table.  `total_amount` and `delivery_fee` are
`numeric(10,2)` values in integer cents; timestamps are clock ticks. -/
structure Order where
  id : Nat
  restaurant_id : Nat
  customer_name : String
  customer_phone : String
  customer_address : String
  status : String
  total_amount : Int
  delivery_fee : Int
  payment_method : String
  payment_status : String
  notes : Option String
  created_at : Nat
  updated_at : Nat
deriving DecidableEq, Repr

/-- A row of the `order_items` table.  `price` and `subtotal` are
`numeric(10,2)` values in integer cents; `subtotal` is the stored generated
column `quantity * price`. -/
structure OrderItem where
  id : Nat
  order_id : Nat
  menu_item_id : Nat
  quantity : Int
  price : Int
  subtotal : Int
deriving DecidableEq, Repr

/-- The persistent state the order routes read and write, together with the
id generator and the clock supplying `now()`. -/
structure Store where
  restaurants : List Restaurant
  menu_items : List MenuItem
  orders : List Order
  order_items : List OrderItem
  next_order_id : Nat
  next_item_id : Nat
  now : Nat
deriving DecidableEq, Repr

/-- The storage errors PostgREST surfaces to the route handlers, which
`throw` them into `next(error)`.  `checkViolation` is a `CHECK` constraint
failure, `foreignKeyViolation` a dangling foreign key, `noSingleRow` the
`.single()` error when zero rows were returned. -/
inductive DbError where
  | checkViolation
  | foreignKeyViolation
  | noSingleRow
deriving DecidableEq, Repr

/-- A JSON response: the success envelope with an HTTP status and payload, or
the failure envelope with an HTTP status and an `error` message. -/
inductive Response (α : Type) where
  | ok (status : Nat) (data : α)
  | err (status : Nat) (error : String)
deriving DecidableEq, Repr

/-- The outcome of one route handler: a response it sent itself, or a storage
error it forwarded to the error middleware via `next(error)`. -/
inductive RouteResult (α : Type) where
  | resp (r : Response α)
  | thrown (e : DbError)
deriving DecidableEq, Repr

/-- The `CHECK (status IN ('pending','preparing','delivered','cancelled'))`
constraint on `orders.status`. -/
def statusValid (st : String) : Bool :=
  st = "pending" || st = "preparing" || st = "delivered" || st = "cancelled"

/-- The `CHECK (payment_method IN ('cash','card','online'))` constraint. -/
def paymentMethodValid (pm : String) : Bool :=
  pm = "cash" || pm = "card" || pm = "online"

/-- The `CHECK (payment_status IN ('pending','paid','refunded'))`
constraint. -/
def paymentStatusValid (ps : String) : Bool :=
  ps = "pending" || ps = "paid" || ps = "refunded"

/-- All `CHECK` constraints of one `orders` row (status, non-negative
`total_amount`, payment enums).  `delivery_fee` has no `CHECK` in the
schema. -/
def orderChecksOk (o : Order) : Bool :=
  statusValid o.status && decide (0 ≤ o.total_amount)
    && paymentMethodValid o.payment_method && paymentStatusValid o.payment_status

/-- Constraint validation of an `orders` row against the store: row `CHECK`
constraints are evaluated during the row write, the foreign-key trigger on
`restaurant_id` afterwards, so a `CHECK` failure is reported first. -/
def checkOrderRow (s : Store) (o : Order) : Option DbError :=
  if !orderChecksOk o then some .checkViolation
  else if !(s.restaurants.any fun r => r.id == o.restaurant_id) then
    some .foreignKeyViolation
  else none

/-- The `CHECK (quantity > 0)` and `CHECK (price >= 0)` constraints of one
`order_items` row. -/
def itemChecksOk (it : OrderItem) : Bool :=
  decide (0 < it.quantity) && decide (0 ≤ it.price)

/-- Constraint validation of an `order_items` row against the store: row
`CHECK` constraints first, then the foreign keys on `order_id` and
`menu_item_id`. -/
def checkItemRow (s : Store) (it : OrderItem) : Option DbError :=
  if !itemChecksOk it then some .checkViolation
  else if !(s.orders.any fun o => o.id == it.order_id) then
    some .foreignKeyViolation
  else if !(s.menu_items.any fun m => m.id == it.menu_item_id) then
    some .foreignKeyViolation
  else none

/-- The fields of a `POST /orders` body other than `items`: the handler
forwards them verbatim (`const \x7b items, ...orderData \x7d = req.body`) into
`insert([orderData])`, and the schema fills the listed defaults for omitted
columns (`status` → `'pending'`, `delivery_fee` → `0`,
`payment_method` → `'cash'`, `payment_status` → `'pending'`). -/
structure OrderInput where
  restaurant_id : Nat
  customer_name : String
  customer_phone : String
  customer_address : String
  status : Option String
  total_amount : Int
  delivery_fee : Option Int
  payment_method : Option String
  payment_status : Option String
  notes : Option String
deriving DecidableEq, Repr

/-- One entry of the `items` array of a `POST /orders` body; the handler
keeps exactly `menu_item_id`, `quantity` and `price`. -/
structure ItemInput where
  menu_item_id : Nat
  quantity : Int
  price : Int
deriving DecidableEq, Repr

/-- The `orders` row an `OrderInput` inserts: schema defaults applied, the
generated id, and `created_at = updated_at = now()`. -/
def rowOfInput (s : Store) (inp : OrderInput) : Order :=
  { id := s.next_order_id
    restaurant_id := inp.restaurant_id
    customer_name := inp.customer_name
    customer_phone := inp.customer_phone
    customer_address := inp.customer_address
    status := inp.status.getD "pending"
    total_amount := inp.total_amount
    delivery_fee := inp.delivery_fee.getD 0
    payment_method := inp.payment_method.getD "cash"
    payment_status := inp.payment_status.getD "pending"
    notes := inp.notes
    created_at := s.now
    updated_at := s.now }

/-- `supabase.from('orders').insert([orderData]).select().single()`: validate
the row, append it, return it with its generated id. -/
def insertOrder (s : Store) (inp : OrderInput) : Except DbError (Order × Store) :=
  let o := rowOfInput s inp
  match checkOrderRow s o with
  | some e => .error e
  | none =>
      .ok (o, { s with orders := s.orders ++ [o], next_order_id := s.next_order_id + 1 })

/-- The `order_items` row for order `oid` built from one request item, with
generated id `nid` and the stored generated column
`subtotal = quantity * price`. -/
def mkItemRow (nid oid : Nat) (it : ItemInput) : OrderItem :=
  { id := nid, order_id := oid, menu_item_id := it.menu_item_id,
    quantity := it.quantity, price := it.price,
    subtotal := it.quantity * it.price }

/-- The `order_items` rows built for order `oid` from the request items, with
generated ids `nid, nid+1, ...`. -/
def assignIds (nid : Nat) (oid : Nat) : List ItemInput → List OrderItem
  | [] => []
  | it :: rest => mkItemRow nid oid it :: assignIds (nid + 1) oid rest

/-- The store `createOrder` leaves behind on success: the header row
appended with the next order id, and the generated item rows appended. -/
def afterCreate (s : Store) (inp : OrderInput) (items : List ItemInput) : Store :=
  { s with orders := s.orders ++ [rowOfInput s inp],
           next_order_id := s.next_order_id + 1,
           order_items := s.order_items ++
             assignIds s.next_item_id s.next_order_id items,
           next_item_id := s.next_item_id +
             (assignIds s.next_item_id s.next_order_id items).length }

/-- First constraint violation among the batch rows, in insertion order. -/
def firstItemError (s : Store) (rows : List OrderItem) : Option DbError :=
  rows.findSome? (checkItemRow s)

/-- `supabase.from('order_items').insert(orderItems)`: a single multi-row
`INSERT`, hence atomic — on any constraint violation no row is persisted. -/
def insertOrderItems (s : Store) (rows : List OrderItem) : Except DbError Store :=
  match firstItemError s rows with
  | some e => .error e
  | none =>
      .ok { s with order_items := s.order_items ++ rows,
                   next_item_id := s.next_item_id + rows.length }

/-- `POST /orders`: insert the header; if that succeeds and `items` is
non-empty, batch-insert the item rows tagged with the new order id.  A batch
failure is forwarded with the header already persisted (no rollback). -/
def createOrder (s : Store) (inp : OrderInput) (items : List ItemInput) :
    RouteResult Order × Store :=
  match insertOrder s inp with
  | .error e => (.thrown e, s)
  | .ok (order, s1) =>
      if items.length > 0 then
        match insertOrderItems s1 (assignIds s1.next_item_id order.id items) with
        | .error e => (.thrown e, s1)
        | .ok s2 => (.resp (.ok 201 order), s2)
      else (.resp (.ok 201 order), s1)

/-- An `order_items` row joined with `menu_items(name)`. -/
structure ItemWithName where
  item : OrderItem
  menu_item_name : Option String
deriving DecidableEq, Repr

/-- The aggregate view `GET /orders/:id` responds with: the header spread
together with `restaurants(name)` and the item rows joined with
`menu_items(name)`. -/
structure OrderAggregate where
  order : Order
  restaurant_name : Option String
  items : List ItemWithName
deriving DecidableEq, Repr

/-- The `menu_items(name)` join of one item row. -/
def joinMenuName (s : Store) (it : OrderItem) : ItemWithName :=
  { item := it,
    menu_item_name := (s.menu_items.find? fun m => m.id == it.menu_item_id).map (·.name) }

/-- `GET /orders/:id`: fetch the header (404 `'Order not found'` when
absent), then the order's item rows, and respond with the merged
aggregate. -/
def getOrder (s : Store) (id : Nat) : RouteResult OrderAggregate :=
  match s.orders.find? (fun o => o.id == id) with
  | none => .resp (.err 404 "Order not found")
  | some o =>
      .resp (.ok 200
        { order := o
          restaurant_name :=
            (s.restaurants.find? fun r => r.id == o.restaurant_id).map (·.name)
          items := (s.order_items.filter fun it => it.order_id == id).map
            (joinMenuName s) })

/-- A `PUT /orders/:id` body: an arbitrary subset of header columns
(`const updateData = req.body`). -/
structure OrderPatch where
  restaurant_id : Option Nat := none
  customer_name : Option String := none
  customer_phone : Option String := none
  customer_address : Option String := none
  status : Option String := none
  total_amount : Option Int := none
  delivery_fee : Option Int := none
  payment_method : Option String := none
  payment_status : Option String := none
  notes : Option (Option String) := none
deriving DecidableEq, Repr

/-- The row produced by `UPDATE`-ing `o` with the patch fields; the
`update_orders_updated_at` trigger sets `updated_at = now()`. -/
def applyPatch (o : Order) (p : OrderPatch) (now : Nat) : Order :=
  { id := o.id
    restaurant_id := p.restaurant_id.getD o.restaurant_id
    customer_name := p.customer_name.getD o.customer_name
    customer_phone := p.customer_phone.getD o.customer_phone
    customer_address := p.customer_address.getD o.customer_address
    status := p.status.getD o.status
    total_amount := p.total_amount.getD o.total_amount
    delivery_fee := p.delivery_fee.getD o.delivery_fee
    payment_method := p.payment_method.getD o.payment_method
    payment_status := p.payment_status.getD o.payment_status
    notes := p.notes.getD o.notes
    created_at := o.created_at
    updated_at := now }

/-- `supabase.from('orders').update(patch).eq('id', id).select().single()`:
when no row matches, no constraint is evaluated and `.single()` fails with
the zero-rows error; when the row exists, the updated row is validated and
either stored or the constraint violation raised (leaving the row as it
was). -/
def updateOrderById (s : Store) (id : Nat) (p : OrderPatch) :
    Except DbError (Order × Store) :=
  match s.orders.find? (fun o => o.id == id) with
  | none => .error .noSingleRow
  | some o =>
      let o' := applyPatch o p s.now
      match checkOrderRow s o' with
      | some e => .error e
      | none =>
          .ok (o', { s with
            orders := s.orders.map fun q => if q.id == id then o' else q })

/-- `PUT /orders/:id`: update the header row with the body fields and respond
with the new row, or forward the storage error. -/
def updateOrder (s : Store) (id : Nat) (p : OrderPatch) :
    RouteResult Order × Store :=
  match updateOrderById s id p with
  | .error e => (.thrown e, s)
  | .ok (o, s1) => (.resp (.ok 200 o), s1)

/-- `PATCH /orders/:id/status`: `if (!status)` — a missing or empty status is
answered with 400 `'Status is required'` before any storage call; otherwise
the handler updates only the `status` column. -/
def setStatus (s : Store) (id : Nat) (status? : Option String) :
    RouteResult Order × Store :=
  if status?.getD "" = "" then
    (.resp (.err 400 "Status is required"), s)
  else
    updateOrder s id { status := status? }

/-- `DELETE /orders/:id`: delete the header row (`ON DELETE CASCADE` removes
its item rows) and respond with success whether or not a row matched. -/
def deleteOrder (s : Store) (id : Nat) : RouteResult String × Store :=
  (.resp (.ok 200 "Order deleted successfully"),
   { s with
     orders := s.orders.filter fun o => !(o.id == id)
     order_items := s.order_items.filter fun it => !(it.order_id == id) })

/-- An IEEE-754 binary64 value, as the dyadic rational `m * 2^e`.  The
exponent is unbounded: every value arising in this development lies well
inside the normal range, where binary64 arithmetic agrees with 53-bit
round-to-nearest dyadic arithmetic. -/
structure F64 where
  m : Int
  e : Int
deriving DecidableEq, Repr

/-- The exact rational value of a binary64 number. -/
def F64.toRat (f : F64) : ℚ := (f.m : ℚ) * (2 : ℚ) ^ f.e

/-- The JavaScript number `0`, the initial accumulator of `reduce(..., 0)`. -/
def F64.zero : F64 := ⟨0, 0⟩

/-- Fuelled helper for `bitlen`. -/
def bitlenAux : Nat → Nat → Nat
  | 0, _ => 0
  | fuel + 1, n => if n = 0 then 0 else bitlenAux fuel (n / 2) + 1

/-- Number of binary digits of `n` (`0` for `0`). -/
def bitlen (n : Nat) : Nat := bitlenAux n n

/-- Decides `2 ^ e ≤ n / d` for positive `n`, `d`. -/
def pow2LE (e : Int) (n d : Nat) : Bool :=
  if 0 ≤ e then d * 2 ^ e.toNat ≤ n else d ≤ n * 2 ^ (-e).toNat

/-- `⌊log₂ (n / d)⌋` for positive `n`, `d`: the bit-length difference,
corrected by one comparison. -/
def floorLog2 (n d : Nat) : Int :=
  let g : Int := (bitlen n : Int) - (bitlen d : Int)
  if pow2LE g n d then g else g - 1

/-- Rounds the fraction `num / den` to the nearest integer, ties to even. -/
def roundNearestEven (num den : Nat) : Nat :=
  let q := num / den
  let r := num % den
  if den < 2 * r then q + 1
  else if 2 * r < den then q
  else if q % 2 = 0 then q else q + 1

/-- Rounds the fraction `num / den` (`den > 0`, not necessarily in lowest
terms) to the nearest binary64 value (round to nearest, ties to even, 53
significand bits): scale the magnitude into `[2^52, 2^53)`, round, and
reattach the scale and sign. -/
def toF64 (num : Int) (den : Nat) : F64 :=
  if num = 0 then F64.zero
  else
    let n := num.natAbs
    let e := floorLog2 n den
    let shift : Int := 52 - e
    let num' := if 0 ≤ shift then n * 2 ^ shift.toNat else n
    let den' := if 0 ≤ shift then den else den * 2 ^ (-shift).toNat
    let m := roundNearestEven num' den'
    if num < 0 then ⟨-(m : Int), e - 52⟩ else ⟨(m : Int), e - 52⟩

/-- IEEE-754 binary64 addition: the exact sum, written over the common
denominator `2^(-min a.e b.e)`, correctly rounded. -/
def fadd (a b : F64) : F64 :=
  let e := min a.e b.e
  let s := a.m * 2 ^ (a.e - e).toNat + b.m * 2 ^ (b.e - e).toNat
  if 0 ≤ e then toF64 (s * 2 ^ e.toNat) 1 else toF64 s (2 ^ (-e).toNat)

/-- `parseFloat(o.total_amount)`: PostgREST serialises the `numeric(10,2)`
value of `c` cents as its decimal string, and `parseFloat` yields the nearest
binary64 to `c / 100`. -/
def parseAmount (c : Int) : F64 := toF64 c 100

/-- The payload of `GET /orders/stats/summary`. -/
structure Stats where
  total_orders : Nat
  pending : Nat
  preparing : Nat
  delivered : Nat
  cancelled : Nat
  total_revenue : F64
deriving DecidableEq, Repr

/-- `GET /orders/stats/summary`: count all orders and each status by
filtering, and total the revenue of the delivered orders by the JavaScript
floating-point fold `reduce((sum, o) => sum + parseFloat(o.total_amount), 0)`. -/
def summarize (s : Store) : Stats :=
  { total_orders := s.orders.length
    pending := (s.orders.filter fun o => o.status == "pending").length
    preparing := (s.orders.filter fun o => o.status == "preparing").length
    delivered := (s.orders.filter fun o => o.status == "delivered").length
    cancelled := (s.orders.filter fun o => o.status == "cancelled").length
    total_revenue := (s.orders.filter fun o => o.status == "delivered").foldl
      (fun sum o => fadd sum (parseAmount o.total_amount)) F64.zero }

/-- The exact decimal revenue, in cents: the sum of `total_amount` over the
delivered orders, as `numeric` arithmetic would compute it. -/
def exactRevenueCents (s : Store) : Int :=
  ((s.orders.filter fun o => o.status == "delivered").map (·.total_amount)).sum

/-- Floating-point revenue of a list of cent amounts, in list order — the
summation `GET /stats/summary` performs on the delivered orders. -/
def revenueFold (amounts : List Int) : F64 :=
  amounts.foldl (fun acc c => fadd acc (parseAmount c)) F64.zero

/-- Modelled from the spec: `src/middleware/errorHandler.js` is not under
`src/`.  §7's taxonomy classifies a 400 response for missing or malformed
input and a storage `CHECK`-constraint violation both as the ValidationError
failure kind. -/
def IsValidationFailure {α : Type} : RouteResult α → Prop
  | .resp (.err 400 _) => True
  | .thrown .checkViolation => True
  | _ => False

/-- Modelled from the spec: `src/middleware/errorHandler.js` is not under
`src/`.  §7's taxonomy classifies a 404 response and the zero-rows
`.single()` error both as the NotFound failure kind. -/
def IsNotFoundFailure {α : Type} : RouteResult α → Prop
  | .resp (.err 404 _) => True
  | .thrown .noSingleRow => True
  | _ => False

/-- Modelled from the spec: `src/middleware/errorHandler.js` is not under
`src/`.  §7's taxonomy classifies a dangling-foreign-key violation as the
ReferenceError failure kind. -/
def IsReferenceFailure {α : Type} : RouteResult α → Prop
  | .thrown .foreignKeyViolation => True
  | _ => False

/-- Referential well-formedness of a store, as the schema's generated keys
and foreign keys guarantee: every generated order id is below the generator,
and every item row references an existing order. -/
structure Store.WF (s : Store) : Prop where
  order_id_lt : ∀ o ∈ s.orders, o.id < s.next_order_id
  item_order_fk : ∀ it ∈ s.order_items, ∃ o ∈ s.orders, o.id = it.order_id

/-- The header columns of an order row other than the generated id and the
server-assigned timestamps. -/
def headerFields (o : Order) :
    Nat × String × String × String × String × Int × Int × String × String × Option String :=
  (o.restaurant_id, o.customer_name, o.customer_phone, o.customer_address,
   o.status, o.total_amount, o.delivery_fee, o.payment_method,
   o.payment_status, o.notes)

/-- The header columns a `POST /orders` body denotes once the schema defaults
are filled in. -/
def inputFields (inp : OrderInput) :
    Nat × String × String × String × String × Int × Int × String × String × Option String :=
  (inp.restaurant_id, inp.customer_name, inp.customer_phone,
   inp.customer_address, inp.status.getD "pending", inp.total_amount,
   inp.delivery_fee.getD 0, inp.payment_method.getD "cash",
   inp.payment_status.getD "pending", inp.notes)

/-- The `(menu_item_id, quantity, price)` triple of a stored item row. -/
def itemTriple (it : OrderItem) : Nat × Int × Int :=
  (it.menu_item_id, it.quantity, it.price)

/-- The `(menu_item_id, quantity, price)` triple of a request item. -/
def inputTriple (it : ItemInput) : Nat × Int × Int :=
  (it.menu_item_id, it.quantity, it.price)

/-- A store with no orders at all. -/
def emptyStore : Store :=
  { restaurants := [⟨1, "Resto"⟩], menu_items := [⟨1, "Burger"⟩],
    orders := [], order_items := [], next_order_id := 1, next_item_id := 1,
    now := 5 }

/-- A delivered order of `c` cents with id `i`, used to build concrete
stores. -/
def deliveredOrder (i : Nat) (c : Int) : Order :=
  { id := i, restaurant_id := 1, customer_name := "Ada",
    customer_phone := "555", customer_address := "1 Main St",
    status := "delivered", total_amount := c, delivery_fee := 0,
    payment_method := "cash", payment_status := "paid", notes := none,
    created_at := 0, updated_at := 0 }

/-- A store whose orders are ten delivered orders of 0.10 and ten of 0.20,
interleaved — amounts whose exact decimal sum is 3.00. -/
def floatStore : Store :=
  { restaurants := [⟨1, "Resto"⟩], menu_items := [], order_items := [],
    orders := (List.range 10).flatMap
      (fun i => [deliveredOrder (2 * i) 10, deliveredOrder (2 * i + 1) 20]),
    next_order_id := 20, next_item_id := 1, now := 0 }

/-- A concrete pending order with id 1. -/
def sampleOrder : Order :=
  { id := 1, restaurant_id := 1, customer_name := "Ada",
    customer_phone := "555", customer_address := "1 Main St",
    status := "pending", total_amount := 1000, delivery_fee := 200,
    payment_method := "cash", payment_status := "pending", notes := none,
    created_at := 3, updated_at := 3 }

/-- A one-order store used to instantiate theorems with hypotheses:
`sampleOrder` together with one item row. -/
def sampleStore : Store :=
  { restaurants := [⟨1, "Resto"⟩], menu_items := [⟨1, "Burger"⟩],
    orders := [sampleOrder],
    order_items := [{ id := 1, order_id := 1, menu_item_id := 1,
                      quantity := 2, price := 500, subtotal := 1000 }],
    next_order_id := 2, next_item_id := 2, now := 5 }

/-- A valid `POST /orders` body header for `sampleStore`. -/
def sampleInput : OrderInput :=
  { restaurant_id := 1, customer_name := "Grace", customer_phone := "777",
    customer_address := "2 Side St", status := none, total_amount := 1300,
    delivery_fee := some 100, payment_method := some "card",
    payment_status := none, notes := some "ring twice" }

/-- Valid request items for `sampleStore`: two and one units of menu item
1. -/
def sampleItems : List ItemInput :=
  [{ menu_item_id := 1, quantity := 2, price := 500 },
   { menu_item_id := 1, quantity := 1, price := 300 }]

/-- Request items referencing menu item 99, which no store here contains. -/
def badItems : List ItemInput :=
  [{ menu_item_id := 99, quantity := 1, price := 500 }]

/-! ## Helper lemmas -/

/-- `find?` skips a prefix on which the predicate is everywhere false. -/
theorem find_skip_of_false {α : Type} (p : α → Bool) (l1 l2 : List α)
    (h : ∀ x ∈ l1, p x = false) : (l1 ++ l2).find? p = l2.find? p := by
  induction l1 with
  | nil => simp
  | cons a l ih =>
      have ha := h a (by simp)
      rw [List.cons_append, List.find?_cons_of_neg _ (by simp [ha])]
      exact ih fun x hx => h x (by simp [hx])

/-- `findSome?` yields nothing when the function yields nothing on every
element. -/
theorem findSome_none {α β : Type} (f : α → Option β) (l : List α)
    (h : ∀ x ∈ l, f x = none) : l.findSome? f = none := by
  induction l with
  | nil => rfl
  | cons a l ih =>
      rw [List.findSome?_cons, h a (by simp)]
      exact ih fun x hx => h x (by simp [hx])

/-- `findSome?` yields `b` when every element yields nothing or `b` and some
element yields `b`. -/
theorem findSome_first {α β : Type} (f : α → Option β) (b : β) (l : List α)
    (hall : ∀ x ∈ l, f x = none ∨ f x = some b)
    (hex : ∃ x ∈ l, f x = some b) : l.findSome? f = some b := by
  induction l with
  | nil => simp at hex
  | cons a l ih =>
      rcases hall a (by simp) with ha | ha
      · rw [List.findSome?_cons, ha]
        apply ih (fun x hx => hall x (by simp [hx]))
        rcases hex with ⟨x, hx, hfx⟩
        rcases List.mem_cons.mp hx with rfl | hx₂
        · rw [ha] at hfx; cases hfx
        · exact ⟨x, hx₂, hfx⟩
      · rw [List.findSome?_cons, ha]

/-- The generated item rows carry the request triples, in order. -/
theorem assignIds_triples (oid : Nat) (l : List ItemInput) : ∀ nid,
    (assignIds nid oid l).map itemTriple = l.map inputTriple := by
  induction l with
  | nil => intro nid; rfl
  | cons it rest ih =>
      intro nid
      simp only [assignIds, List.map_cons, ih]
      rfl

/-- Every generated item row is tagged with the order id, mirrors one request
item, and stores `subtotal = quantity * price`. -/
theorem assignIds_mem (oid : Nat) (l : List ItemInput) : ∀ nid,
    ∀ r ∈ assignIds nid oid l, r.order_id = oid ∧
      (∃ it ∈ l, r.menu_item_id = it.menu_item_id ∧ r.quantity = it.quantity ∧
        r.price = it.price) ∧
      r.subtotal = r.quantity * r.price := by
  induction l with
  | nil => intro nid r hr; cases hr
  | cons it rest ih =>
      intro nid r hr
      rcases List.mem_cons.mp hr with rfl | hr₂
      · exact ⟨rfl, ⟨it, by simp, rfl, rfl, rfl⟩, rfl⟩
      · obtain ⟨h1, ⟨it₂, hmem₂, h2⟩, h3⟩ := ih (nid + 1) r hr₂
        exact ⟨h1, ⟨it₂, by simp [hmem₂], h2⟩, h3⟩

/-- Every request item is mirrored by some generated row. -/
theorem assignIds_exists (oid : Nat) (l : List ItemInput) (it : ItemInput)
    (hmem : it ∈ l) : ∀ nid, ∃ r ∈ assignIds nid oid l,
      r.menu_item_id = it.menu_item_id ∧ r.quantity = it.quantity ∧
      r.price = it.price ∧ r.order_id = oid := by
  induction l with
  | nil => cases hmem
  | cons a rest ih =>
      intro nid
      rcases List.mem_cons.mp hmem with rfl | hmem₂
      · exact ⟨mkItemRow nid oid it, by simp [assignIds], rfl, rfl, rfl, rfl⟩
      · obtain ⟨r, hr, hprops⟩ := ih hmem₂ (nid + 1)
        refine ⟨r, ?_, hprops⟩
        simp only [assignIds, List.mem_cons]
        exact Or.inr hr

/-- The four status buckets of the enum partition any order list whose
statuses all satisfy the `CHECK` constraint. -/
theorem filter_status_partition (l : List Order)
    (h : ∀ o ∈ l, statusValid o.status = true) :
    (l.filter fun o => o.status == "pending").length +
    (l.filter fun o => o.status == "preparing").length +
    (l.filter fun o => o.status == "delivered").length +
    (l.filter fun o => o.status == "cancelled").length = l.length := by
  induction l with
  | nil => rfl
  | cons o rest ih =>
      have hrest := ih fun x hx => h x (by simp [hx])
      have ho : o.status = "pending" ∨ o.status = "preparing" ∨
          o.status = "delivered" ∨ o.status = "cancelled" := by
        simpa [statusValid, or_assoc] using h o (by simp)
      rcases ho with h1 | h1 | h1 | h1 <;>
        simp [List.filter_cons, h1] <;> omega

/-! ## Claims -/

/-- Claim C9: a `PATCH /orders/id/status` request whose body lacks a status
responds 400 with exactly the envelope of `success:false` and error
`Status is required`, and performs no storage update. -/
theorem setStatus_missing_status_400 (s : Store) (id : Nat) :
    setStatus s id none = (.resp (.err 400 "Status is required"), s) := by
  simp [setStatus]

/-- Claim C8: deleting an id with no stored order reports success (the
zero-rows-affected delete is not a NotFound) and leaves the store
unchanged. -/
theorem deleteOrder_missing_id_success_unchanged (s : Store) (id : Nat)
    (hwf : s.WF) (h : ∀ o ∈ s.orders, o.id ≠ id) :
    (deleteOrder s id).1 = .resp (.ok 200 "Order deleted successfully") ∧
    (deleteOrder s id).2 = s := by
  refine ⟨rfl, ?_⟩
  have ho : (s.orders.filter fun o => !(o.id == id)) = s.orders :=
    List.filter_eq_self.mpr (by intro o hmem; simpa using h o hmem)
  have hi : (s.order_items.filter fun it => !(it.order_id == id)) =
      s.order_items := by
    apply List.filter_eq_self.mpr
    intro it hmem
    obtain ⟨o, homem, hoid⟩ := hwf.item_order_fk it hmem
    have hne := h o homem
    rw [hoid] at hne
    simpa using hne
  simp only [deleteOrder, ho, hi]

/-- Claim C8 witness: deleting absent id 9 from the sample store succeeds and
changes nothing. -/
theorem deleteOrder_missing_id_success_unchanged_witness :
    (deleteOrder sampleStore 9).1 =
      .resp (.ok 200 "Order deleted successfully") ∧
    (deleteOrder sampleStore 9).2 = sampleStore :=
  deleteOrder_missing_id_success_unchanged sampleStore 9
    ⟨by decide, by decide⟩ (by decide)

/-- Claim C6: after deleting an existing order id, fetching it yields the
404 `Order not found` response and no item row with that order id remains
(the cascade removed the line items). -/
theorem deleteOrder_then_getOrder_notFound (s : Store) (id : Nat)
    (hmem : ∃ o ∈ s.orders, o.id = id) :
    getOrder (deleteOrder s id).2 id = .resp (.err 404 "Order not found") ∧
    ((deleteOrder s id).2).order_items.filter
      (fun it => it.order_id == id) = [] := by
  constructor
  · have hfind : ((deleteOrder s id).2).orders.find?
        (fun o => o.id == id) = none := by
      apply List.find?_eq_none.mpr
      intro o ho
      have hmem₂ := List.mem_filter.mp ho
      simpa using hmem₂.2
    simp [getOrder, hfind]
  · simp only [deleteOrder]
    rw [List.filter_filter]
    apply List.filter_eq_nil_iff.mpr
    intro it hit
    simp

/-- Claim C6 witness: deleting order 1 from the sample store makes it a 404
and leaves no item rows for it. -/
theorem deleteOrder_then_getOrder_notFound_witness :
    getOrder (deleteOrder sampleStore 1).2 1 =
      .resp (.err 404 "Order not found") ∧
    ((deleteOrder sampleStore 1).2).order_items.filter
      (fun it => it.order_id == 1) = [] :=
  deleteOrder_then_getOrder_notFound sampleStore 1
    ⟨sampleOrder, by decide, by decide⟩

/-- Claim C7: updating an id with no stored order fails with the NotFound
kind and changes nothing; updating an existing order (with a patch the
column constraints accept) stores and returns the patched header whose
update timestamp is refreshed to the current clock. -/
theorem updateOrder_notFound_and_refresh (s : Store) (id : Nat)
    (p : OrderPatch) :
    ((∀ o ∈ s.orders, o.id ≠ id) →
      IsNotFoundFailure (updateOrder s id p).1 ∧
      (updateOrder s id p).2 = s) ∧
    (∀ o, s.orders.find? (fun q => q.id == id) = some o →
      checkOrderRow s (applyPatch o p s.now) = none →
      updateOrder s id p =
        (.resp (.ok 200 (applyPatch o p s.now)),
         { s with orders := s.orders.map fun q =>
             if q.id == id then applyPatch o p s.now else q }) ∧
      (applyPatch o p s.now).updated_at = s.now) := by
  constructor
  · intro h
    have hfind : s.orders.find? (fun q => q.id == id) = none :=
      List.find?_eq_none.mpr (by intro o ho; simpa using h o ho)
    constructor
    · simp [updateOrder, updateOrderById, hfind, IsNotFoundFailure]
    · simp [updateOrder, updateOrderById, hfind]
  · intro o hfind hchk
    refine ⟨?_, rfl⟩
    simp [updateOrder, updateOrderById, hfind, hchk]

/-- Claim C7 witness: updating absent id 9 of the sample store is NotFound
and changes nothing; patching order 1's status to `preparing` succeeds and
stamps `updated_at` with the clock value 5. -/
theorem updateOrder_notFound_and_refresh_witness :
    (IsNotFoundFailure (updateOrder sampleStore 9 {}).1 ∧
      (updateOrder sampleStore 9 {}).2 = sampleStore) ∧
    updateOrder sampleStore 1 { status := some "preparing" } =
      (.resp (.ok 200 (applyPatch sampleOrder { status := some "preparing" }
        sampleStore.now)),
       { sampleStore with orders := sampleStore.orders.map fun q =>
           if q.id == 1 then
             (applyPatch sampleOrder { status := some "preparing" } sampleStore.now)
           else q }) ∧
    (applyPatch sampleOrder { status := some "preparing" }
      sampleStore.now).updated_at = sampleStore.now :=
  ⟨(updateOrder_notFound_and_refresh sampleStore 9 {}).1 (by decide),
   (updateOrder_notFound_and_refresh sampleStore 1
      { status := some "preparing" }).2 sampleOrder (by decide) (by decide)⟩

/-- Claim C5: setting the status of an existing order to a value outside the
enum fails with the ValidationError kind (the early 400 for the empty
string, the `CHECK` violation otherwise) and leaves the store unchanged. -/
theorem setStatus_invalid_fails_unchanged (s : Store) (id : Nat) (st : String)
    (hmem : ∃ o ∈ s.orders, o.id = id) (hst : statusValid st = false) :
    IsValidationFailure (setStatus s id (some st)).1 ∧
    (setStatus s id (some st)).2 = s := by
  by_cases he : st = ""
  · subst he
    exact ⟨by simp [setStatus, IsValidationFailure], by simp [setStatus]⟩
  · obtain ⟨o, hfind⟩ : ∃ o, s.orders.find? (fun q => q.id == id) = some o := by
      rcases hmem with ⟨o, homem, hoid⟩
      cases hfind : s.orders.find? (fun q => q.id == id) with
      | some o₂ => exact ⟨o₂, rfl⟩
      | none =>
          exfalso
          have := List.find?_eq_none.mp hfind o homem
          simp [hoid] at this
    have hchk : orderChecksOk
        (applyPatch o { status := some st } s.now) = false := by
      simp [orderChecksOk, applyPatch, hst]
    constructor
    · simp [setStatus, he, updateOrder, updateOrderById, hfind,
        checkOrderRow, hchk, IsValidationFailure]
    · simp [setStatus, he, updateOrder, updateOrderById, hfind,
        checkOrderRow, hchk]

/-- Claim C5 witness: setting order 1 of the sample store to the status
`bogus` is a validation failure and leaves the store unchanged. -/
theorem setStatus_invalid_fails_unchanged_witness :
    IsValidationFailure (setStatus sampleStore 1 (some "bogus")).1 ∧
    (setStatus sampleStore 1 (some "bogus")).2 = sampleStore :=
  setStatus_invalid_fails_unchanged sampleStore 1 "bogus"
    ⟨sampleOrder, by decide, by decide⟩ (by decide)

/-- Claim C10: when every stored status lies in the enum (as the storage
`CHECK` guarantees), the four per-status counts of `summarize` sum to
`total_orders`: the buckets partition the order set. -/
theorem summarize_counts_partition (s : Store)
    (h : ∀ o ∈ s.orders, statusValid o.status = true) :
    (summarize s).pending + (summarize s).preparing +
    (summarize s).delivered + (summarize s).cancelled =
    (summarize s).total_orders := by
  simpa [summarize] using filter_status_partition s.orders h

/-- Claim C10 witness: on the sample store the bucket counts 1, 0, 0, 0 sum
to the single order. -/
theorem summarize_counts_partition_witness :
    (summarize sampleStore).pending + (summarize sampleStore).preparing +
    (summarize sampleStore).delivered + (summarize sampleStore).cancelled =
    (summarize sampleStore).total_orders :=
  summarize_counts_partition sampleStore (by decide)

/-- Claim C3: for a valid header and valid items, `createOrder` responds 201
with a header, and `getOrder` on its id returns that header — its
non-generated columns are exactly the defaulted input — together with items
whose multiset of `(menu_item_id, quantity, price)` triples is the input's,
each row storing `subtotal = quantity * price`. -/
theorem createOrder_getOrder_roundtrip (s : Store) (inp : OrderInput)
    (items : List ItemInput) (hwf : s.WF)
    (hres : (s.restaurants.any fun r => r.id == inp.restaurant_id) = true)
    (hst : statusValid (inp.status.getD "pending") = true)
    (hta : 0 ≤ inp.total_amount)
    (hpm : paymentMethodValid (inp.payment_method.getD "cash") = true)
    (hps : paymentStatusValid (inp.payment_status.getD "pending") = true)
    (hitems : ∀ it ∈ items, 0 < it.quantity ∧ 0 ≤ it.price ∧
      (s.menu_items.any fun m => m.id == it.menu_item_id) = true) :
    ∃ ord s2 agg,
      createOrder s inp items = (.resp (.ok 201 ord), s2) ∧
      getOrder s2 ord.id = .resp (.ok 200 agg) ∧
      headerFields agg.order = inputFields inp ∧
      ((agg.items.map fun iw => itemTriple iw.item : List (Nat × Int × Int)) :
        Multiset (Nat × Int × Int)) = ↑(items.map inputTriple) ∧
      ∀ iw ∈ agg.items, iw.item.subtotal = iw.item.quantity * iw.item.price := by
  have hchk : checkOrderRow s (rowOfInput s inp) = none := by
    simp [checkOrderRow, orderChecksOk, rowOfInput, hst, hta, hpm, hps, hres]
  have hins : insertOrder s inp =
      .ok (rowOfInput s inp,
        { s with orders := s.orders ++ [rowOfInput s inp],
                 next_order_id := s.next_order_id + 1 }) := by
    simp [insertOrder, hchk]
  have hid : (rowOfInput s inp).id = s.next_order_id := rfl
  have hfindold : s.orders.find? (fun q => q.id == s.next_order_id) = none := by
    apply List.find?_eq_none.mpr
    intro x hx
    have hlt := hwf.order_id_lt x hx
    simp [Nat.ne_of_lt hlt]
  have hfilterold : (s.order_items.filter
      fun it => it.order_id == s.next_order_id) = [] := by
    apply List.filter_eq_nil_iff.mpr
    intro it hit
    obtain ⟨o₀, ho₀, hoid⟩ := hwf.item_order_fk it hit
    have hlt := hwf.order_id_lt o₀ ho₀
    rw [← hoid]
    simp [Nat.ne_of_lt hlt]
  have hfilterrows : ((assignIds s.next_item_id s.next_order_id items).filter
      fun it => it.order_id == s.next_order_id) =
      assignIds s.next_item_id s.next_order_id items := by
    apply List.filter_eq_self.mpr
    intro r hr
    obtain ⟨hoid, -, -⟩ := assignIds_mem s.next_order_id items s.next_item_id r hr
    simp [hoid]
  have hrows_none : ∀ r ∈ assignIds s.next_item_id s.next_order_id items,
      checkItemRow { s with orders := s.orders ++ [rowOfInput s inp],
                            next_order_id := s.next_order_id + 1 } r = none := by
    intro r hr
    obtain ⟨hoid, ⟨it, hitmem, hmid, hq, hp⟩, hsub⟩ :=
      assignIds_mem s.next_order_id items s.next_item_id r hr
    obtain ⟨hq2, hp2, hmenu⟩ := hitems it hitmem
    have hic : itemChecksOk r = true := by
      simp [itemChecksOk, hq, hp, hq2, hp2]
    have hofk : (((s.orders ++ [rowOfInput s inp]).any
        fun q => q.id == r.order_id)) = true := by
      apply List.any_eq_true.mpr
      exact ⟨rowOfInput s inp, by simp, by simp [hoid, hid]⟩
    have hmfk : ((s.menu_items.any fun m => m.id == r.menu_item_id)) = true := by
      rw [hmid]; exact hmenu
    simp [checkItemRow, hic, hofk, hmfk]
  have hfirst : firstItemError
      { s with orders := s.orders ++ [rowOfInput s inp],
               next_order_id := s.next_order_id + 1 }
      (assignIds s.next_item_id s.next_order_id items) = none :=
    findSome_none _ _ hrows_none
  cases items with
  | nil =>
      refine ⟨rowOfInput s inp,
        { s with orders := s.orders ++ [rowOfInput s inp],
                 next_order_id := s.next_order_id + 1 },
        { order := rowOfInput s inp,
          restaurant_name := ((s.restaurants.find?
            fun r => r.id == inp.restaurant_id).map (·.name)),
          items := [] }, ?_, ?_, rfl, by simp, by simp⟩
      · simp [createOrder, hins]
      · simp [getOrder, hid, hfindold, hfilterold, rowOfInput]
  | cons a l =>
      have hbatch : insertOrderItems
          { s with orders := s.orders ++ [rowOfInput s inp],
                   next_order_id := s.next_order_id + 1 }
          (assignIds s.next_item_id s.next_order_id (a :: l)) =
          .ok (afterCreate s inp (a :: l)) := by
        simp [insertOrderItems, hfirst, afterCreate]
      refine ⟨rowOfInput s inp, afterCreate s inp (a :: l),
        { order := rowOfInput s inp,
          restaurant_name := ((s.restaurants.find?
            fun r => r.id == inp.restaurant_id).map (·.name)),
          items := (assignIds s.next_item_id s.next_order_id (a :: l)).map
            (joinMenuName (afterCreate s inp (a :: l))) },
        ?_, ?_, rfl, ?_, ?_⟩
      · simp [createOrder, hins, hid, hbatch]
      · simp [getOrder, afterCreate, hid, hfindold, List.filter_append,
          hfilterold, hfilterrows, rowOfInput]
      · rw [List.map_map]
        have hcomp : ((fun iw => itemTriple iw.item) ∘
            joinMenuName (afterCreate s inp (a :: l))) = itemTriple := rfl
        rw [hcomp, assignIds_triples s.next_order_id (a :: l) s.next_item_id]
      · intro iw hiw
        obtain ⟨r, hr, rfl⟩ := List.mem_map.mp hiw
        obtain ⟨-, -, hsub⟩ :=
          assignIds_mem s.next_order_id (a :: l) s.next_item_id r hr
        simpa [joinMenuName] using hsub

/-- Claim C3 witness: creating an order in the sample store with two valid
items and fetching it back returns the defaulted input header and both item
triples. -/
theorem createOrder_getOrder_roundtrip_witness :
    ∃ ord s2 agg,
      createOrder sampleStore sampleInput sampleItems =
        (.resp (.ok 201 ord), s2) ∧
      getOrder s2 ord.id = .resp (.ok 200 agg) ∧
      headerFields agg.order = inputFields sampleInput ∧
      ((agg.items.map fun iw => itemTriple iw.item : List (Nat × Int × Int)) :
        Multiset (Nat × Int × Int)) = ↑(sampleItems.map inputTriple) ∧
      ∀ iw ∈ agg.items, iw.item.subtotal =
        iw.item.quantity * iw.item.price :=
  createOrder_getOrder_roundtrip sampleStore sampleInput sampleItems
    ⟨by decide, by decide⟩ (by decide) (by decide) (by decide) (by decide)
    (by decide) (by decide)

/-- Claim C2: when the header is valid but some request item references a
missing menu item (the item `CHECK` constraints holding), `createOrder`
fails with the ReferenceError kind, persists no item rows — the batch is one
atomic multi-row insert — and the already-persisted header row is not rolled
back. -/
theorem createOrder_bad_menu_keeps_header (s : Store) (inp : OrderInput)
    (items : List ItemInput)
    (hres : (s.restaurants.any fun r => r.id == inp.restaurant_id) = true)
    (hst : statusValid (inp.status.getD "pending") = true)
    (hta : 0 ≤ inp.total_amount)
    (hpm : paymentMethodValid (inp.payment_method.getD "cash") = true)
    (hps : paymentStatusValid (inp.payment_status.getD "pending") = true)
    (hq : ∀ it ∈ items, 0 < it.quantity ∧ 0 ≤ it.price)
    (hbad : ∃ it ∈ items,
      (s.menu_items.any fun m => m.id == it.menu_item_id) = false) :
    IsReferenceFailure (createOrder s inp items).1 ∧
    (createOrder s inp items).2.order_items = s.order_items ∧
    (createOrder s inp items).2.orders = s.orders ++ [rowOfInput s inp] := by
  have hchk : checkOrderRow s (rowOfInput s inp) = none := by
    simp [checkOrderRow, orderChecksOk, rowOfInput, hst, hta, hpm, hps, hres]
  have hins : insertOrder s inp =
      .ok (rowOfInput s inp,
        { s with orders := s.orders ++ [rowOfInput s inp],
                 next_order_id := s.next_order_id + 1 }) := by
    simp [insertOrder, hchk]
  have hid : (rowOfInput s inp).id = s.next_order_id := rfl
  have hall : ∀ r ∈ assignIds s.next_item_id s.next_order_id items,
      checkItemRow { s with orders := s.orders ++ [rowOfInput s inp],
                            next_order_id := s.next_order_id + 1 } r = none ∨
      checkItemRow { s with orders := s.orders ++ [rowOfInput s inp],
                            next_order_id := s.next_order_id + 1 } r =
        some .foreignKeyViolation := by
    intro r hr
    obtain ⟨hoid, ⟨it, hitmem, hmid, hqe, hpe⟩, -⟩ :=
      assignIds_mem s.next_order_id items s.next_item_id r hr
    obtain ⟨hq2, hp2⟩ := hq it hitmem
    have hic : itemChecksOk r = true := by
      simp [itemChecksOk, hqe, hpe, hq2, hp2]
    have hofk : (((s.orders ++ [rowOfInput s inp]).any
        fun q2 => q2.id == r.order_id)) = true := by
      apply List.any_eq_true.mpr
      exact ⟨rowOfInput s inp, by simp, by simp [hoid, hid]⟩
    cases hmenu : (s.menu_items.any fun m => m.id == r.menu_item_id) with
    | true => exact Or.inl (by simp [checkItemRow, hic, hofk, hmenu])
    | false => exact Or.inr (by simp [checkItemRow, hic, hofk, hmenu])
  have hex : ∃ r ∈ assignIds s.next_item_id s.next_order_id items,
      checkItemRow { s with orders := s.orders ++ [rowOfInput s inp],
                            next_order_id := s.next_order_id + 1 } r =
        some .foreignKeyViolation := by
    obtain ⟨it, hitmem, hmenu⟩ := hbad
    obtain ⟨r, hr, hmid, hqe, hpe, hoid⟩ :=
      assignIds_exists s.next_order_id items it hitmem s.next_item_id
    obtain ⟨hq2, hp2⟩ := hq it hitmem
    refine ⟨r, hr, ?_⟩
    have hic : itemChecksOk r = true := by
      simp [itemChecksOk, hqe, hpe, hq2, hp2]
    have hofk : (((s.orders ++ [rowOfInput s inp]).any
        fun q2 => q2.id == r.order_id)) = true := by
      apply List.any_eq_true.mpr
      exact ⟨rowOfInput s inp, by simp, by simp [hoid, hid]⟩
    have hmfk : (s.menu_items.any fun m => m.id == r.menu_item_id) = false := by
      rw [hmid]; exact hmenu
    simp [checkItemRow, hic, hofk, hmfk]
  have hfirst : firstItemError
      { s with orders := s.orders ++ [rowOfInput s inp],
               next_order_id := s.next_order_id + 1 }
      (assignIds s.next_item_id s.next_order_id items) =
      some .foreignKeyViolation :=
    findSome_first _ _ _ hall hex
  have hlen : items.length > 0 := by
    rcases hbad with ⟨it, hitmem, -⟩
    cases items with
    | nil => cases hitmem
    | cons a l => simp
  have hbatch : insertOrderItems
      { s with orders := s.orders ++ [rowOfInput s inp],
               next_order_id := s.next_order_id + 1 }
      (assignIds s.next_item_id s.next_order_id items) =
      .error .foreignKeyViolation := by
    simp [insertOrderItems, hfirst]
  refine ⟨?_, ?_, ?_⟩ <;>
    simp [createOrder, hins, hid, hlen, hbatch, IsReferenceFailure]

/-- Claim C2 witness: creating an order in the sample store whose single
item references missing menu item 99 throws the foreign-key violation,
leaves the item rows untouched, and keeps the new header row. -/
theorem createOrder_bad_menu_keeps_header_witness :
    IsReferenceFailure (createOrder sampleStore sampleInput badItems).1 ∧
    (createOrder sampleStore sampleInput badItems).2.order_items =
      sampleStore.order_items ∧
    (createOrder sampleStore sampleInput badItems).2.orders =
      sampleStore.orders ++ [rowOfInput sampleStore sampleInput] :=
  createOrder_bad_menu_keeps_header sampleStore sampleInput badItems
    (by decide) (by decide) (by decide) (by decide) (by decide) (by decide)
    (by decide)

set_option maxRecDepth 200000 in
/-- Claim C1: over the twenty delivered orders of 0.10 and 0.20 in
`floatStore` the exact decimal revenue is 3.00, but the floating-point
summation of `GET /stats/summary` returns a value that is not that exact
decimal sum — the code contradicts the exact-cents claim. -/
theorem summarize_revenue_not_exact_decimal :
    (exactRevenueCents floatStore : ℚ) / 100 = 3 ∧
    (summarize floatStore).total_revenue.toRat ≠
      (exactRevenueCents floatStore : ℚ) / 100 := by
  have hc : exactRevenueCents floatStore = 300 := by decide
  have he : (exactRevenueCents floatStore : ℚ) / 100 = 3 := by
    rw [hc]; norm_num
  refine ⟨he, ?_⟩
  rw [he]
  have hr : (summarize floatStore).total_revenue =
      ⟨6755399441055747, -51⟩ := by decide
  rw [hr]
  simp [F64.toRat]
  norm_num

set_option maxRecDepth 200000 in
/-- Claim C4 counterexample: on `floatStore` the `total_revenue` returned by
`summarize` is not the sum of `total_amount` over the delivered orders — the
floating-point fold drifts from the exact 3.00. -/
theorem summarize_revenue_sum_counterexample :
    ¬ ((summarize floatStore).total_revenue.toRat =
      (exactRevenueCents floatStore : ℚ) / 100) := by
  have hc : exactRevenueCents floatStore = 300 := by decide
  have hr : (summarize floatStore).total_revenue =
      ⟨6755399441055747, -51⟩ := by decide
  rw [hc, hr]
  simp [F64.toRat]
  norm_num

/-- Claim C4 (amended): `summarize` returns `total_orders` counting all
orders, one count per status bucket (0 when no order has that status), and
`total_revenue` the binary64 floating-point fold of `total_amount` over
exactly the delivered orders — equal to the exact decimal sum only up to
floating-point rounding; on an empty store all counts and the revenue are
0. -/
theorem summarize_spec (s : Store) :
    (summarize s).total_orders = s.orders.length ∧
    (summarize s).pending = s.orders.countP (fun o => o.status == "pending") ∧
    (summarize s).preparing =
      s.orders.countP (fun o => o.status == "preparing") ∧
    (summarize s).delivered =
      s.orders.countP (fun o => o.status == "delivered") ∧
    (summarize s).cancelled =
      s.orders.countP (fun o => o.status == "cancelled") ∧
    (summarize s).total_revenue =
      revenueFold ((s.orders.filter fun o => o.status == "delivered").map
        (·.total_amount)) ∧
    (s.orders = [] → summarize s = ⟨0, 0, 0, 0, 0, F64.zero⟩) := by
  refine ⟨rfl, ?_, ?_, ?_, ?_, ?_, ?_⟩
  · simp [summarize, List.countP_eq_length_filter]
  · simp [summarize, List.countP_eq_length_filter]
  · simp [summarize, List.countP_eq_length_filter]
  · simp [summarize, List.countP_eq_length_filter]
  · simp [summarize, revenueFold, List.foldl_map]
  · intro h
    simp [summarize, h, revenueFold]

/-- Claim C4 witness: on the store with no orders, `summarize` returns all
counts 0 and revenue 0. -/
theorem summarize_spec_witness :
    summarize emptyStore = ⟨0, 0, 0, 0, 0, F64.zero⟩ :=
  (summarize_spec emptyStore).2.2.2.2.2.2 (by decide)

end Dashboard
